import Mathlib

/-!
Shallow embedding of `Ai_code/app/startup.py`, a build-time warm-up script:
`preload_deepface_models` imports the DeepFace library and calls its
`build_model` function for each identifier in a fixed model list, then probes
detector availability; `verify_weights` lists the cached weight files under
`~/.deepface/weights`; the `__main__` block runs both and exits with code 0.

The external world is modelled by oracles: the outcome of the DeepFace import,
the outcome of each `build_model` call, the outcome of the
`deepface.commons.functions` import, and the filesystem operations used by
`verify_weights` (`Path.home()`, `exists()`, `glob`).  Prints are collected as
a list of formatted strings (one per `print` call, without the trailing
newline that `print` itself appends).  The `build_model` invocations and the
filesystem operations are additionally recorded as traces, so that claims
about which calls are attempted, and about read-only filesystem use, can be
stated.
-/

/-- A Python exception raised by the `from deepface import DeepFace`
statement: `isImportError` tells whether it is an `ImportError` (matched by
the first `except` clause of `preload_deepface_models`) or some other
`Exception` (matched by the second). -/
structure PyExc where
  isImportError : Bool
  msg : String
deriving Repr, DecidableEq

/-- Environment oracle for `preload_deepface_models`: the result of the
DeepFace import (`none` means success), the outcome of each
`DeepFace.build_model` call keyed by model name (`Except.error e` models a
raised `Exception` with message `e`), and whether the
`from deepface.commons import functions` statement inside the detector loop
succeeds. -/
structure Env where
  deepFaceImport : Option PyExc
  buildModel : String → Except String Unit
  commonsFunctionsOk : Bool

/-- The fixed list of recognition model identifiers in `startup.py`
(the commented-out entries are not part of the list). -/
def models : List String := ["Facenet"]

/-- The fixed list of detector identifiers in `startup.py`
(the commented-out entries are not part of the list). -/
def detectors : List String := ["opencv"]

/-- The separator `"=" * 60` printed by `preload_deepface_models`. -/
def sepLine : String := String.mk (List.replicate 60 '=')

/-- One iteration of the model loop: print the loading banner, call
`DeepFace.build_model model_name` inside a `try`, and print either the
success line or the caught-failure line. -/
def modelLoadStep (bm : String → Except String Unit) (m : String) :
    List String :=
  ("\n→ Loading " ++ m ++ "...") ::
    (match bm m with
      | Except.ok _ => ["✓ " ++ m ++ " loaded successfully"]
      | Except.error e => ["✗ Failed to load " ++ m ++ ": " ++ e])

/-- The model loop `for model_name in models: ...` of
`preload_deepface_models`.  Returns the printed lines together with the list
of `build_model` invocations made, in order. -/
def modelLoop (bm : String → Except String Unit) :
    List String → List String × List String
  | [] => ([], [])
  | m :: rest =>
      let step := modelLoadStep bm m
      let r := modelLoop bm rest
      (step ++ r.1, m :: r.2)

/-- One iteration of the detector loop: print the loading banner, attempt
`from deepface.commons import functions` inside a `try` (the statement is the
same for every detector identifier), and print either the availability line
or the caught-failure deferred note. -/
def detectorStep (commonsOk : Bool) (d : String) : List String :=
  ("\n→ Loading " ++ d ++ " detector...") ::
    (if commonsOk then ["✓ " ++ d ++ " detector available"]
      else ["⚠ Note: " ++ d ++ " detector will load on first use"])

/-- The detector loop `for detector in detectors: ...` of
`preload_deepface_models`. -/
def detectorLoop (commonsOk : Bool) : List String → List String
  | [] => []
  | d :: rest => detectorStep commonsOk d ++ detectorLoop commonsOk rest

/-- Result of `preload_deepface_models`: the printed lines, the list of
`DeepFace.build_model` calls made (in order), and the returned boolean. -/
structure PreloadResult where
  lines : List String
  calls : List String
  result : Bool
deriving Repr, DecidableEq

/-- Shallow embedding of `preload_deepface_models`: prints the header, then
it imports DeepFace.  On `ImportError` the except clause prints the
not-installed line and returns `False`; on any other exception during the
`try` body the second except clause prints the error line and returns
`False`.  On success it runs the model loop and the detector loop (whose
per-iteration failures are caught inside the loops) and returns `True`. -/
def preload_deepface_models (env : Env) : PreloadResult :=
  let header : List String :=
    [sepLine, "Starting DeepFace model pre-loading...", sepLine]
  match env.deepFaceImport with
  | some exc =>
      if exc.isImportError then
        { lines := header ++
            ["✗ DeepFace not installed. Skipping model pre-loading."],
          calls := [], result := false }
      else
        { lines := header ++
            ["✗ Error during model pre-loading: " ++ exc.msg],
          calls := [], result := false }
  | none =>
      let mr := modelLoop env.buildModel models
      let dLines := detectorLoop env.commonsFunctionsOk detectors
      { lines := header ++
          ["\nPre-loading " ++ toString models.length ++
            " recognition model(s)..."] ++
          mr.1 ++
          ["\n\nPre-loading " ++ toString detectors.length ++
            " detector(s)..."] ++
          dLines ++
          ["\n" ++ sepLine, "✓ DeepFace model pre-loading complete!",
            sepLine],
        calls := mr.2, result := true }

/-- A directory entry of the weights directory, as seen by
`weights_dir.glob` in `verify_weights`: its name and whether it is a
subdirectory rather than a regular file. -/
structure DirEntry where
  name : String
  isDir : Bool
deriving Repr, DecidableEq

/-- A name is hidden when it begins with a dot. -/
def isHidden (name : String) : Bool :=
  match name.data with
  | [] => false
  | c :: _ => c = '.'

/-- Models the Python call `weights_dir.glob("*")` of `pathlib.Path.glob`:
fnmatch-based, it yields every entry of the directory in directory order,
regular files, subdirectories and hidden entries alike (unlike the `glob`
module, `pathlib.Path.glob` does not exclude names beginning with a dot). -/
def globStar (es : List DirEntry) : List DirEntry :=
  es

/-- Filesystem operations performed by the script itself (the external
library performs its own, unmodelled, operations).  The write operations are
part of the operation language but are never issued by `verify_weights`. -/
inductive FsOp where
  | readHome
  | checkDirExists
  | globDir
  | makeDir
  | writeFile
deriving Repr, DecidableEq

/-- Whether a filesystem operation creates or modifies filesystem state. -/
def FsOp.isWrite : FsOp → Bool
  | FsOp.makeDir => true
  | FsOp.writeFile => true
  | _ => false

/-- Environment oracle for `verify_weights`: the result of `Path.home()`,
of `weights_dir.exists()`, and of listing the entries of the weights
directory (the input to `glob`).  `Except.error e` models a raised
`Exception` with message `e`. -/
structure FsEnv where
  homeDir : Except String String
  weightsDirExists : Except String Bool
  weightsDirEntries : Except String (List DirEntry)

/-- Result of `verify_weights`: the printed lines and the trace of
filesystem operations issued (an operation is recorded when attempted, also
when it raises). -/
structure VerifyResult where
  lines : List String
  trace : List FsOp
deriving Repr, DecidableEq

/-- Shallow embedding of `verify_weights`: compute
`home / ".deepface" / "weights"`, and if the directory exists print the
count of globbed entries, the first 5 names, and an `...and N more` notice
when more than 5 exist; if it does not exist print a warning naming the
directory.  Every raised exception inside the `try` body is caught by the
`except Exception` clause, which prints a could-not-verify warning. -/
def verify_weights (fs : FsEnv) : VerifyResult :=
  match fs.homeDir with
  | Except.error e =>
      { lines := ["⚠ Could not verify weights: " ++ e],
        trace := [FsOp.readHome] }
  | Except.ok home =>
      let weights_dir := home ++ "/.deepface/weights"
      match fs.weightsDirExists with
      | Except.error e =>
          { lines := ["⚠ Could not verify weights: " ++ e],
            trace := [FsOp.readHome, FsOp.checkDirExists] }
      | Except.ok false =>
          { lines := ["\n⚠ Weights directory not found: " ++ weights_dir],
            trace := [FsOp.readHome, FsOp.checkDirExists] }
      | Except.ok true =>
          match fs.weightsDirEntries with
          | Except.error e =>
              { lines := ["⚠ Could not verify weights: " ++ e],
                trace := [FsOp.readHome, FsOp.checkDirExists, FsOp.globDir] }
          | Except.ok es =>
              let weight_files := globStar es
              let n := weight_files.length
              { lines :=
                  ("\n✓ Found " ++ toString n ++ " weight file(s) in " ++
                    weights_dir) ::
                  (weight_files.take 5).map (fun f => "  - " ++ f.name) ++
                  (if n > 5 then
                    ["  ... and " ++ toString (n - 5) ++ " more"]
                  else []),
                trace := [FsOp.readHome, FsOp.checkDirExists, FsOp.globDir] }

/-- Result of running the script as the entry point: the printed lines, the
`build_model` call trace, the filesystem operation trace, and the process
exit code passed to `sys.exit`. -/
structure MainResult where
  lines : List String
  calls : List String
  trace : List FsOp
  exitCode : Nat
deriving Repr, DecidableEq

/-- Shallow embedding of the `if __name__ == "__main__":` block: print the
banner, run `preload_deepface_models`, run `verify_weights`, print the final
status line according to the preload result, and call `sys.exit(0)` in both
branches. -/
def startupMain (env : Env) (fs : FsEnv) : MainResult :=
  let success := preload_deepface_models env
  let v := verify_weights fs
  { lines := "\n🚀 Running startup script...\n" ::
      success.lines ++ v.lines ++
      [if success.result then "\n✓ Startup script completed successfully"
        else "\n⚠ Startup script completed with warnings"],
    calls := success.calls,
    trace := v.trace,
    exitCode := if success.result then 0 else 0 }

/-- Concrete environment in which the DeepFace import succeeds but the
`build_model` call for "Facenet" raises. -/
def envFail : Env :=
  { deepFaceImport := none,
    buildModel := fun m =>
      if m = "Facenet" then Except.error "weights missing" else Except.ok (),
    commonsFunctionsOk := true }

/-- Concrete environment in which the DeepFace import raises
`ImportError`. -/
def envNoLib : Env :=
  { deepFaceImport := some { isImportError := true, msg := "no module" },
    buildModel := fun _ => Except.ok (),
    commonsFunctionsOk := false }

/-- Concrete filesystem in which `Path.home()` raises. -/
def fsBad : FsEnv :=
  { homeDir := Except.error "permission denied",
    weightsDirExists := Except.ok true,
    weightsDirEntries := Except.ok [] }

/-- Concrete filesystem with a weights directory holding 7 regular files,
one of them hidden. -/
def fs7 : FsEnv :=
  { homeDir := Except.ok "/home/user",
    weightsDirExists := Except.ok true,
    weightsDirEntries := Except.ok
      [⟨"facenet_weights.h5", false⟩, ⟨".vgg_face_weights.h5", false⟩,
        ⟨"openface_weights.h5", false⟩, ⟨"deepface_weights.h5", false⟩,
        ⟨"arcface_weights.h5", false⟩, ⟨"retinaface.h5", false⟩,
        ⟨"ssd_weights.h5", false⟩] }

/-- Concrete filesystem in which the weights directory is missing. -/
def fsMissing : FsEnv :=
  { homeDir := Except.ok "/home/user",
    weightsDirExists := Except.ok false,
    weightsDirEntries := Except.error "unreachable" }

/-- Concrete filesystem with an existing but empty weights directory. -/
def fsEmpty : FsEnv :=
  { homeDir := Except.ok "/home/user",
    weightsDirExists := Except.ok true,
    weightsDirEntries := Except.ok [] }

/-- Concrete filesystem whose weights directory holds only hidden entries
(one subdirectory and one regular file). -/
def fsHidden : FsEnv :=
  { homeDir := Except.ok "/home/user",
    weightsDirExists := Except.ok true,
    weightsDirEntries := Except.ok [⟨".cache", true⟩, ⟨".lock", false⟩] }

/-- The `build_model` call trace of `modelLoop` is exactly the model list it
iterates over, in order, whatever the per-model outcomes are. -/
lemma modelLoop_calls (bm : String → Except String Unit) (ms : List String) :
    (modelLoop bm ms).2 = ms := by
  induction ms with
  | nil => rfl
  | cons m rest ih => simp [modelLoop, ih]

/-- Appending on the right keeps the head character of a string. -/
lemma data_head_append (a b : String) (c : Char)
    (h : a.data.head? = some c) : (a ++ b).data.head? = some c := by
  rw [String.data_append]
  cases ha : a.data with
  | nil => rw [ha] at h; exact absurd h (by simp)
  | cons x xs =>
      rw [ha] at h
      rw [List.cons_append]
      simpa using h

/-- The availability line printed by the detector loop starts with a check
mark. -/
lemma avail_data_head (e : String) :
    ("✓ " ++ e ++ " detector available").data.head? = some '✓' :=
  data_head_append _ _ _ (data_head_append _ _ _ rfl)

/-- The loading banner printed by the detector loop starts with a newline. -/
lemma loading_data_head (e : String) :
    ("\n→ Loading " ++ e ++ " detector...").data.head? = some '\n' :=
  data_head_append _ _ _ (data_head_append _ _ _ rfl)

/-- The deferred note printed by the detector loop starts with a warning
sign. -/
lemma note_data_head (e : String) :
    ("⚠ Note: " ++ e ++ " detector will load on first use").data.head? =
      some '⚠' :=
  data_head_append _ _ _ (data_head_append _ _ _ rfl)

/-- The availability line for a detector appears in its loop iteration
exactly when the `deepface.commons.functions` import succeeds. -/
lemma avail_mem_detectorStep (ok : Bool) (d : String) :
    (("✓ " ++ d ++ " detector available") ∈ detectorStep ok d) ↔ ok = true := by
  cases ok with
  | true => simp [detectorStep]
  | false =>
      simp only [detectorStep, Bool.false_eq_true, if_false]
      constructor
      · intro hmem
        rcases List.mem_cons.mp hmem with h | h
        · have h1 := congrArg (fun s => s.data.head?) h
          simp only [avail_data_head, loading_data_head] at h1
          exact absurd h1 (by decide)
        · rcases List.mem_singleton.mp h with h2
          have h1 := congrArg (fun s => s.data.head?) h2
          simp only [avail_data_head, note_data_head] at h1
          exact absurd h1 (by decide)
      · intro h; exact absurd h (by decide)

/-- C1: in every branch of the entry point the process exits with status
code 0: the exit code of `startupMain` is 0 for every environment, whether
the preload succeeded or not and whatever the filesystem does. -/
theorem startupMain_exitCode_zero (env : Env) (fs : FsEnv) :
    (startupMain env fs).exitCode = 0 := by
  unfold startupMain
  by_cases h : (preload_deepface_models env).result <;> simp [h]

/-- C2: `preload_deepface_models` returns `True` exactly when the DeepFace
DeepFace import succeeded, regardless of how many `build_model` calls
fail: the returned boolean equals `Option.isNone` of the import outcome for
every environment, with the `buildModel` oracle arbitrary. -/
theorem preload_result_iff_import_ok (env : Env) :
    (preload_deepface_models env).result = env.deepFaceImport.isNone := by
  unfold preload_deepface_models
  match h : env.deepFaceImport with
  | none => simp
  | some exc => by_cases hi : exc.isImportError <;> simp [hi]

/-- C3: for every model identifier in the fixed list whose `build_model`
call raises, the failure is caught and logged with the identifier and the
error message, and the call trace is still the entire original list in
order, so every remaining identifier is attempted. -/
theorem preload_failure_logged_all_attempted (env : Env) (m e : String)
    (himp : env.deepFaceImport = none) (hm : m ∈ models)
    (he : env.buildModel m = Except.error e) :
    ("✗ Failed to load " ++ m ++ ": " ++ e) ∈
      (preload_deepface_models env).lines
    ∧ (preload_deepface_models env).calls = models := by
  have hm1 : m = "Facenet" := by simpa [models] using hm
  subst hm1
  refine ⟨?_, ?_⟩
  · unfold preload_deepface_models
    rw [himp]
    simp [models, modelLoop, modelLoadStep, he]
  · unfold preload_deepface_models
    rw [himp]
    simpa using modelLoop_calls env.buildModel models

/-- Witness for C3 at a concrete environment where the single listed model
fails to load. -/
theorem preload_failure_logged_all_attempted_witness :
    ("✗ Failed to load " ++ "Facenet" ++ ": " ++ "weights missing") ∈
      (preload_deepface_models envFail).lines
    ∧ (preload_deepface_models envFail).calls = models :=
  preload_failure_logged_all_attempted envFail "Facenet" "weights missing"
    rfl (by simp [models]) rfl

/-- C4: when the weights directory exists with `n` entries,
`verify_weights` prints the count `n`, then the names of at most the first
5 of them, then an `and N more` notice with `N = n - 5` exactly when more
than 5 exist. -/
theorem verify_weights_listing (fs : FsEnv) (hme : String)
    (es : List DirEntry)
    (h1 : fs.homeDir = Except.ok hme)
    (h2 : fs.weightsDirExists = Except.ok true)
    (h3 : fs.weightsDirEntries = Except.ok es) :
    (verify_weights fs).lines =
      ("\n✓ Found " ++ toString es.length ++ " weight file(s) in " ++
        hme ++ "/.deepface/weights") ::
      (es.take 5).map (fun f => "  - " ++ f.name) ++
      (if es.length > 5 then
        ["  ... and " ++ toString (es.length - 5) ++ " more"]
      else []) := by
  unfold verify_weights
  rw [h1, h2, h3]
  simp [globStar, String.append_assoc]

/-- Witness for C4 at a concrete 7-file directory (one file hidden, counted
and listed like any other): exactly the first 5 names are listed and 2 more
are reported. -/
theorem verify_weights_listing_witness :
    (verify_weights fs7).lines =
      ["\n✓ Found 7 weight file(s) in /home/user/.deepface/weights",
        "  - facenet_weights.h5", "  - .vgg_face_weights.h5",
        "  - openface_weights.h5", "  - deepface_weights.h5",
        "  - arcface_weights.h5",
        "  ... and 2 more"] := by
  have h := verify_weights_listing fs7 "/home/user"
    [⟨"facenet_weights.h5", false⟩, ⟨".vgg_face_weights.h5", false⟩,
      ⟨"openface_weights.h5", false⟩, ⟨"deepface_weights.h5", false⟩,
      ⟨"arcface_weights.h5", false⟩, ⟨"retinaface.h5", false⟩,
      ⟨"ssd_weights.h5", false⟩]
    rfl rfl rfl
  rw [h]
  rfl

/-- C5: no exception propagates out of `preload_deepface_models` or
`verify_weights`: each raising site in the environment leads to a caught
exception converted to a printed message, the functions returning normally
with those messages among their printed lines. -/
theorem no_exception_propagates (env : Env) (fs : FsEnv) :
    (∀ exc, env.deepFaceImport = some exc → exc.isImportError = true →
      ("✗ DeepFace not installed. Skipping model pre-loading.") ∈
        (preload_deepface_models env).lines)
    ∧ (∀ exc, env.deepFaceImport = some exc → exc.isImportError = false →
      ("✗ Error during model pre-loading: " ++ exc.msg) ∈
        (preload_deepface_models env).lines)
    ∧ (∀ m e, env.deepFaceImport = none → m ∈ models →
      env.buildModel m = Except.error e →
      ("✗ Failed to load " ++ m ++ ": " ++ e) ∈
        (preload_deepface_models env).lines)
    ∧ (∀ e, fs.homeDir = Except.error e →
      (verify_weights fs).lines = ["⚠ Could not verify weights: " ++ e])
    ∧ (∀ hm e, fs.homeDir = Except.ok hm →
      fs.weightsDirExists = Except.error e →
      (verify_weights fs).lines = ["⚠ Could not verify weights: " ++ e])
    ∧ (∀ hm e, fs.homeDir = Except.ok hm →
      fs.weightsDirExists = Except.ok true →
      fs.weightsDirEntries = Except.error e →
      (verify_weights fs).lines = ["⚠ Could not verify weights: " ++ e]) := by
  refine ⟨?_, ?_, ?_, ?_, ?_, ?_⟩
  · intro exc h1 h2
    unfold preload_deepface_models
    rw [h1]
    simp [h2]
  · intro exc h1 h2
    unfold preload_deepface_models
    rw [h1]
    simp [h2]
  · intro m e h1 h2 h3
    have hm1 : m = "Facenet" := by simpa [models] using h2
    subst hm1
    unfold preload_deepface_models
    rw [h1]
    simp [models, modelLoop, modelLoadStep, h3]
  · intro e h1
    unfold verify_weights
    rw [h1]
  · intro hm e h1 h2
    unfold verify_weights
    rw [h1, h2]
  · intro hm e h1 h2 h3
    unfold verify_weights
    rw [h1, h2, h3]

/-- Witness for C5 at a concrete missing-library environment and a
concrete filesystem whose home lookup raises. -/
theorem no_exception_propagates_witness :
    ("✗ DeepFace not installed. Skipping model pre-loading.") ∈
      (preload_deepface_models envNoLib).lines
    ∧ (verify_weights fsBad).lines =
      ["⚠ Could not verify weights: " ++ "permission denied"] :=
  ⟨(no_exception_propagates envNoLib fsBad).1 _ rfl rfl,
    (no_exception_propagates envNoLib fsBad).2.2.2.1 "permission denied" rfl⟩

/-- C6: when the DeepFace import raises `ImportError`, the whole preload is
skipped: no `build_model` call is attempted, the not-installed line is
printed instead of an exception propagating, and `False` is returned. -/
theorem import_unavailable_skips_preload (env : Env) (exc : PyExc)
    (h1 : env.deepFaceImport = some exc) (h2 : exc.isImportError = true) :
    (preload_deepface_models env).calls = []
    ∧ ("✗ DeepFace not installed. Skipping model pre-loading.") ∈
      (preload_deepface_models env).lines
    ∧ (preload_deepface_models env).result = false := by
  unfold preload_deepface_models
  rw [h1]
  simp [h2]

/-- Witness for C6 at a concrete environment whose DeepFace import raises
`ImportError`. -/
theorem import_unavailable_skips_preload_witness :
    (preload_deepface_models envNoLib).calls = []
    ∧ ("✗ DeepFace not installed. Skipping model pre-loading.") ∈
      (preload_deepface_models envNoLib).lines
    ∧ (preload_deepface_models envNoLib).result = false :=
  import_unavailable_skips_preload envNoLib
    { isImportError := true, msg := "no module" } rfl rfl

/-- Merging the string literals of the found-count line when the count is
zero. -/
lemma found_zero_line (x : String) :
    "\n✓ Found " ++ (toString (0 : Nat) ++ (" weight file(s) in " ++ x)) =
      "\n✓ Found 0 weight file(s) in " ++ x := by
  rw [← String.append_assoc, ← String.append_assoc]
  rfl

/-- C7: when the weights directory does not exist, `verify_weights` prints
the warning naming the directory, never issues the glob enumeration, and
returns normally; and an existing directory with 0 entries yields the
found-0 message and a normal return. -/
theorem verify_weights_missing_or_empty (fs fs2 : FsEnv) (hme hme2 : String)
    (h1 : fs.homeDir = Except.ok hme)
    (h2 : fs.weightsDirExists = Except.ok false)
    (h3 : fs2.homeDir = Except.ok hme2)
    (h4 : fs2.weightsDirExists = Except.ok true)
    (h5 : fs2.weightsDirEntries = Except.ok []) :
    ((verify_weights fs).lines =
      ["\n⚠ Weights directory not found: " ++ hme ++ "/.deepface/weights"]
      ∧ FsOp.globDir ∉ (verify_weights fs).trace)
    ∧ (verify_weights fs2).lines =
      ["\n✓ Found 0 weight file(s) in " ++ hme2 ++ "/.deepface/weights"] := by
  refine ⟨⟨?_, ?_⟩, ?_⟩
  · unfold verify_weights
    rw [h1, h2]
    simp [String.append_assoc]
  · unfold verify_weights
    rw [h1, h2]
    simp
  · unfold verify_weights
    rw [h3, h4, h5]
    simp [globStar, String.append_assoc]
    exact found_zero_line _

/-- Witness for C7 at a concrete missing directory and a concrete empty
directory. -/
theorem verify_weights_missing_or_empty_witness :
    ((verify_weights fsMissing).lines =
      ["\n⚠ Weights directory not found: " ++ "/home/user" ++
        "/.deepface/weights"]
      ∧ FsOp.globDir ∉ (verify_weights fsMissing).trace)
    ∧ (verify_weights fsEmpty).lines =
      ["\n✓ Found 0 weight file(s) in " ++ "/home/user" ++
        "/.deepface/weights"] :=
  verify_weights_missing_or_empty fsMissing fsEmpty "/home/user" "/home/user"
    rfl rfl rfl rfl rfl

/-- The filesystem trace of `verify_weights` contains no write operation in
any branch. -/
lemma verify_weights_trace_nowrite (fs : FsEnv) :
    (verify_weights fs).trace.filter (fun op => op.isWrite) = [] := by
  unfold verify_weights
  cases h1 : fs.homeDir with
  | error e => rfl
  | ok hm =>
      cases h2 : fs.weightsDirExists with
      | error e => rfl
      | ok b =>
          cases b with
          | false => rfl
          | true =>
              cases h3 : fs.weightsDirEntries with
              | error e => rfl
              | ok es => rfl

/-- C8: the script treats the weights directory as read-only: neither the
whole entry-point run nor `verify_weights` on its own ever issues a
filesystem operation that creates or modifies anything. -/
theorem script_filesystem_readonly (env : Env) (fs : FsEnv) :
    (startupMain env fs).trace.filter (fun op => op.isWrite) = []
    ∧ (verify_weights fs).trace.filter (fun op => op.isWrite) = [] :=
  ⟨verify_weights_trace_nowrite fs, verify_weights_trace_nowrite fs⟩

/-- Counterexample to C9 as stated: for a directory holding only the hidden
entries `.cache` and `.lock`, `verify_weights` prints a count of 2, not the
count of 0 the claim predicts, because the fnmatch-based
`pathlib.Path.glob` does not exclude dot-entries. -/
theorem verify_weights_hidden_counterexample :
    (verify_weights fsHidden).lines.head? =
      some "\n✓ Found 2 weight file(s) in /home/user/.deepface/weights"
    ∧ ¬ (verify_weights fsHidden).lines.head? =
      some "\n✓ Found 0 weight file(s) in /home/user/.deepface/weights" := by
  refine ⟨?_, ?_⟩ <;> decide

/-- C9 amended: `verify_weights` enumerates the weights directory with the
glob star pattern of `pathlib`, whose reported count and listing include
directory entries as well as regular files and also every entry whose name
begins with a dot, so for a directory containing only hidden entries the
count printed is the number of those entries. -/
theorem verify_weights_glob_semantics (fs : FsEnv) (hme : String)
    (es : List DirEntry)
    (h1 : fs.homeDir = Except.ok hme)
    (h2 : fs.weightsDirExists = Except.ok true)
    (h3 : fs.weightsDirEntries = Except.ok es) :
    (verify_weights fs).lines.head? =
      some ("\n✓ Found " ++ toString (globStar es).length ++
        " weight file(s) in " ++ hme ++ "/.deepface/weights")
    ∧ (∀ e, e ∈ globStar es ↔ e ∈ es)
    ∧ ((∀ e ∈ es, isHidden e.name = true) →
      (verify_weights fs).lines.head? =
        some ("\n✓ Found " ++ toString es.length ++
          " weight file(s) in " ++ hme ++ "/.deepface/weights")) := by
  have hhead : (verify_weights fs).lines.head? =
      some ("\n✓ Found " ++ toString (globStar es).length ++
        " weight file(s) in " ++ hme ++ "/.deepface/weights") := by
    unfold verify_weights
    rw [h1, h2, h3]
    simp [String.append_assoc]
  refine ⟨hhead, ?_, ?_⟩
  · intro e
    simp [globStar]
  · intro hall
    exact hhead

/-- Witness for the amended C9 at a concrete directory holding only hidden
entries (one subdirectory and one regular file): the reported count is 2,
the number of entries. -/
theorem verify_weights_glob_semantics_witness :
    (verify_weights fsHidden).lines.head? =
      some ("\n✓ Found " ++ toString (2 : Nat) ++
        " weight file(s) in " ++ "/home/user" ++ "/.deepface/weights") :=
  (verify_weights_glob_semantics fsHidden "/home/user"
    [⟨".cache", true⟩, ⟨".lock", false⟩] rfl rfl rfl).2.2 (by decide)

/-- C10: the detector availability probe does not depend on the detector
identifier: for any two identifiers in the fixed list the availability line
of one appears in the preload output exactly when that of the other does,
and for any two identifiers whatsoever a loop iteration under the same
shared import outcome prints its availability line when the other prints
its own, so one run reports every detector the same way. -/
theorem detector_probe_uniform (env : Env) (d1 d2 : String) (ok : Bool)
    (e1 e2 : String) (h1 : d1 ∈ detectors) (h2 : d2 ∈ detectors)
    (himp : env.deepFaceImport = none) :
    (("✓ " ++ d1 ++ " detector available") ∈
      (preload_deepface_models env).lines
      ↔ ("✓ " ++ d2 ++ " detector available") ∈
        (preload_deepface_models env).lines)
    ∧ ((("✓ " ++ e1 ++ " detector available") ∈ detectorStep ok e1)
      ↔ (("✓ " ++ e2 ++ " detector available") ∈ detectorStep ok e2)) := by
  refine ⟨?_, ?_⟩
  · have hd1 : d1 = "opencv" := by simpa [detectors] using h1
    have hd2 : d2 = "opencv" := by simpa [detectors] using h2
    rw [hd1, hd2]
  · rw [avail_mem_detectorStep, avail_mem_detectorStep]

/-- Witness for C10 at a concrete environment and two distinct detector
names under a failed probe import: neither availability line appears. -/
theorem detector_probe_uniform_witness :
    (("✓ " ++ "opencv" ++ " detector available") ∈
      (preload_deepface_models envFail).lines
      ↔ ("✓ " ++ "opencv" ++ " detector available") ∈
        (preload_deepface_models envFail).lines)
    ∧ ((("✓ " ++ "retinaface" ++ " detector available") ∈
        detectorStep false "retinaface")
      ↔ (("✓ " ++ "mtcnn" ++ " detector available") ∈
        detectorStep false "mtcnn")) :=
  detector_probe_uniform envFail "opencv" "opencv" false "retinaface" "mtcnn"
    (by simp [detectors]) (by simp [detectors]) rfl
